import Mathlib

/-!
Shallow embedding of the LLMduel conversation core:
`llm_client.py` (`LLMClient.generate_response`) and
`conversation.py` (`ConversationOrchestrator`).

Python dicts with fixed key sets become Lean structures; the network call
inside `generate_response` becomes an explicit `Except`-valued outcome
parameter (an exception raised by the API call is the `.error` case, matching
the `try`/`except` in the source); the orchestrator's mutable `self.messages`
becomes explicit state passing (`get_next_response` returns the new state
together with the result record).
-/

namespace LLMDuel

/-- Message sent to the API: a dict with keys "role" and "content". -/
structure Msg where
  role : String
  content : String
deriving Repr, DecidableEq

/-- Token-usage record extracted from the backend response
(`usage` dict in `generate_response`). -/
structure Usage where
  prompt_tokens : Nat
  completion_tokens : Nat
  total_tokens : Nat
deriving Repr, DecidableEq

/-- Result dict returned by `LLMClient.generate_response`: keys
`success`, `content`, `finish_reason`, `usage`, `elapsed_time`, `error`. -/
structure GenResult where
  success : Bool
  content : Option String
  finish_reason : Option String
  usage : Option Usage
  elapsed_time : Option Nat
  error : Option String
deriving Repr, DecidableEq

/-- One element of `response.choices` from the backend: the message content
(may be absent) and the finish reason. -/
structure Choice where
  message_content : Option String
  finish_reason : Option String
deriving Repr, DecidableEq

/-- Backend chat-completion response: `choices` list and optional `usage`. -/
structure ApiResponse where
  choices : List Choice
  usage : Option Usage
deriving Repr, DecidableEq

/-- `LLMClient.generate_response`, `llm_client.py` lines 56-100.
The API round-trip is abstracted as `outcome`: `.error e` is an exception
raised by `self.client.chat.completions.create` (caught by the `except`
clause), `.ok resp` a returned response.  `elapsed` is the measured wall
time.  An empty `choices` list makes `response.choices[0]` raise IndexError,
also caught by the same `except` clause. -/
def generate_response (outcome : Except String ApiResponse) (elapsed : Nat) :
    GenResult :=
  match outcome with
  | .error e =>
      { success := false, content := none, finish_reason := none,
        usage := none, elapsed_time := none, error := some e }
  | .ok resp =>
      match resp.choices with
      | [] =>
          { success := false, content := none, finish_reason := none,
            usage := none, elapsed_time := none,
            error := some "list index out of range" }
      | c :: _ =>
          { success := true, content := c.message_content,
            finish_reason := c.finish_reason, usage := resp.usage,
            elapsed_time := some elapsed, error := none }

/-- Transcript entry appended by `get_next_response`: a dict with keys
`content`, `speaker`, `turn`. -/
structure TranscriptEntry where
  content : String
  speaker : String
  turn : Nat
deriving Repr, DecidableEq

/-- A completion-provider client as the orchestrator sees it: a function
from the built message list and the temperature to a result record
(the shape of `LLMClient.generate_response`). -/
abbrev ClientFun := List Msg → Rat → GenResult

/-- State of `ConversationOrchestrator` (`conversation.py` lines 34-46):
the two clients, the two personas, topic, temperature, the resolved
system-prompt template, and the transcript `self.messages`. -/
structure Orchestrator where
  model_a_client : ClientFun
  model_b_client : ClientFun
  model_a_persona : String
  model_b_persona : String
  discussion_topic : String
  temperature : Rat
  system_prompt_template : String
  messages : List TranscriptEntry

/-- Built-in default template from `_load_system_prompt`
(`conversation.py` lines 56-64). -/
def default_system_prompt : String :=
  "You are having a conversation with another AI assistant about: \x7btopic\x7d\n\n" ++
  "Guidelines:\n" ++
  "- Keep responses conversational and natural (2-4 sentences typically)\n" ++
  "- Build on what the other assistant has said\n" ++
  "- Feel free to ask questions, agree, disagree, or introduce new perspectives\n" ++
  "- Stay on topic but allow the conversation to evolve naturally\n" ++
  "- Be respectful and constructive in your dialogue"

/-- Whitespace as Python's `str.strip()` sees it: space, tab, newline,
carriage return, vertical tab, form feed. -/
def py_isspace (c : Char) : Bool :=
  c = ' ' || c = Char.ofNat 9 || c = Char.ofNat 10 || c = Char.ofNat 13 ||
    c = Char.ofNat 11 || c = Char.ofNat 12

/-- Python's `str.strip()` with no argument: remove leading and trailing
whitespace. -/
def pystrip (s : String) : String :=
  String.mk
    (((s.data.dropWhile py_isspace).reverse.dropWhile py_isspace).reverse)

/-- `_load_system_prompt`, `conversation.py` lines 48-67.  The file system is
abstracted as `file_contents`: `.ok (some s)` when the file exists with
content `s`, `.ok none` when it does not exist, `.error e` when reading
raises (the `except` clause returns the short fallback template). -/
def load_system_prompt (file_contents : Except String (Option String)) :
    String :=
  match file_contents with
  | .ok (some s) => pystrip s
  | .ok none => default_system_prompt
  | .error _ =>
      "You are having a conversation with another AI assistant about: \x7btopic\x7d"

/-- `ConversationOrchestrator.__init__`, `conversation.py` lines 13-46:
stores the configuration, starts with an empty transcript, and resolves the
system-prompt template once. -/
def mkOrchestrator (model_a_client model_b_client : ClientFun)
    (model_a_persona model_b_persona discussion_topic : String)
    (temperature : Rat)
    (file_contents : Except String (Option String)) : Orchestrator :=
  { model_a_client := model_a_client, model_b_client := model_b_client,
    model_a_persona := model_a_persona, model_b_persona := model_b_persona,
    discussion_topic := discussion_topic, temperature := temperature,
    system_prompt_template := load_system_prompt file_contents,
    messages := [] }

/-- Left-to-right, non-overlapping substitution of the 7-character
placeholder (an opening brace, `topic`, a closing brace) by `topic.data`,
on character lists. -/
def subst_topic (topic : String) : List Char → List Char
  | [] => []
  | a :: b :: c :: d :: e :: f :: g :: rest =>
      if [a, b, c, d, e, f, g] = String.data "\x7btopic\x7d" then
        topic.data ++ subst_topic topic rest
      else
        a :: subst_topic topic (b :: c :: d :: e :: f :: g :: rest)
  | c :: rest => c :: subst_topic topic rest

/-- `self.system_prompt_template.format(topic=self.discussion_topic)`
(`conversation.py` line 86): substitute the topic for every occurrence of
the placeholder field. -/
def format_topic (template topic : String) : String :=
  String.mk (subst_topic topic template.data)

/-- Body of the replay loop (`conversation.py` lines 105-121): transcript
entry at index `i` becomes an `assistant` message when `(i % 2 == 0)`
coincides with `is_model_a`, else a `user` message, carrying the entry's
content either way. -/
def replay_entry (is_model_a : Bool) (i : Nat) (msg : TranscriptEntry) :
    Msg :=
  if (i % 2 == 0) == is_model_a then
    { role := "assistant", content := msg.content }
  else
    { role := "user", content := msg.content }

/-- The replay loop `for i, msg in enumerate(self.messages)`
(`conversation.py` lines 105-121), with `i` starting at `start`. -/
def replay_from (is_model_a : Bool) : Nat → List TranscriptEntry → List Msg
  | _, [] => []
  | start, m :: rest =>
      replay_entry is_model_a start m :: replay_from is_model_a (start + 1) rest

/-- Bootstrap user message for the very first turn
(`conversation.py` lines 96-99). -/
def bootstrap_user_msg (topic : String) : Msg :=
  { role := "user",
    content := "Please start a conversation about: " ++ topic ++
      ". Share your initial thoughts on this topic in 2-4 sentences." }

/-- Trailing solicitation appended when the replay ends with an assistant
message (`conversation.py` lines 127-130). -/
def continue_user_msg : Msg :=
  { role := "user", content := "Please continue the conversation." }

/-- `_build_context_for_model`, `conversation.py` lines 69-132. -/
def build_context_for_model (st : Orchestrator) (persona : String)
    (is_model_a : Bool) : List Msg :=
  let system_prompt :=
    format_topic st.system_prompt_template st.discussion_topic
  let system_message : Msg :=
    { role := "system", content := persona ++ "\n\n" ++ system_prompt }
  if st.messages.length == 0 && is_model_a then
    [system_message, bootstrap_user_msg st.discussion_topic]
  else
    let msgs := system_message :: replay_from is_model_a 0 st.messages
    if 1 < msgs.length ∧ msgs.getLast?.map Msg.role = some "assistant" then
      msgs ++ [continue_user_msg]
    else
      msgs

/-- Result of `get_next_response`: the provider's result dict with the
`speaker` and `turn` keys added (`conversation.py` lines 182-184). -/
structure TurnResult extends GenResult where
  speaker : String
  turn : Nat
deriving Repr, DecidableEq

/-- Speaker label resolved from the turn parity
(`conversation.py` lines 148-155). -/
def speaker_name (is_model_a : Bool) : String :=
  if is_model_a then "Model A" else "Model B"

/-- The provider call made inside `get_next_response` for a given state and
turn number (`conversation.py` lines 146-172): the resolved client applied
to the built context and the session temperature. -/
def provider_result (st : Orchestrator) (turn_number : Nat) : GenResult :=
  (if turn_number % 2 == 1 then st.model_a_client else st.model_b_client)
    (build_context_for_model st
      (if turn_number % 2 == 1 then st.model_a_persona else st.model_b_persona)
      (turn_number % 2 == 1))
    st.temperature

/-- `get_next_response`, `conversation.py` lines 134-186, as explicit state
passing: returns the updated orchestrator and the result record.  On a
success result the content is a string (`generate_response` stores the
backend's message text there); `getD` totalizes the extraction. -/
def get_next_response (st : Orchestrator) (turn_number : Nat) :
    Orchestrator × TurnResult :=
  let is_model_a_turn : Bool := turn_number % 2 == 1
  let client := if is_model_a_turn then st.model_a_client else st.model_b_client
  let persona :=
    if is_model_a_turn then st.model_a_persona else st.model_b_persona
  let speaker := if is_model_a_turn then "Model A" else "Model B"
  let context_messages := build_context_for_model st persona is_model_a_turn
  let result := client context_messages st.temperature
  let st' :=
    if result.success then
      { st with
          messages := st.messages ++
            [{ content := result.content.getD "", speaker := speaker,
               turn := turn_number }] }
    else
      st
  (st', { toGenResult := result, speaker := speaker, turn := turn_number })

/-- `get_conversation_transcript`, `conversation.py` lines 188-195
(the Python `.copy()` is value semantics here). -/
def get_conversation_transcript (st : Orchestrator) : List TranscriptEntry :=
  st.messages

/-- `reset`, `conversation.py` lines 197-199. -/
def reset (st : Orchestrator) : Orchestrator :=
  { st with messages := [] }

/-! ### Concrete fixtures for evaluating the definitions -/

/-- A client whose every call succeeds with content `c`. -/
def okClient (c : String) : ClientFun :=
  fun _ _ =>
    { success := true, content := some c, finish_reason := some "stop",
      usage := none, elapsed_time := some 1, error := none }

/-- A client whose every call fails with error description `e`. -/
def failClient (e : String) : ClientFun :=
  fun _ _ =>
    { success := false, content := none, finish_reason := none,
      usage := none, elapsed_time := none, error := some e }

/-- A small concrete orchestrator state over a given transcript. -/
def sampleOrch (ms : List TranscriptEntry) : Orchestrator :=
  { model_a_client := okClient "alpha", model_b_client := okClient "beta",
    model_a_persona := "pA", model_b_persona := "pB",
    discussion_topic := "T", temperature := 1,
    system_prompt_template := "Topic: \x7btopic\x7d", messages := ms }

/-- The same concrete state but with failing providers. -/
def sampleOrchFail (ms : List TranscriptEntry) : Orchestrator :=
  { sampleOrch ms with
      model_a_client := failClient "boom", model_b_client := failClient "boom" }

/-! ### Exception-aware model of the template substitution

`format_topic` above is total, as the structural view claims need only
spec-conforming templates.  Python's `str.format`, however, raises on a
template whose fields are not exactly `topic`, and that call
(`conversation.py` line 86) sits outside every `try` block, so the
exception escapes `get_next_response`.  The definitions below model that
raise path explicitly: an `Except.error` value is an exception propagating
out of the operation. -/

/-- The opening-brace character. -/
def openBrace : Char := Char.ofNat 123

/-- The closing-brace character. -/
def closeBrace : Char := Char.ofNat 125

/-- State of the format-string scanner: in literal text, right after an
unprocessed opening or closing brace, or inside a replacement field with the
field characters read so far (reversed). -/
inductive FmtState where
  | text
  | openSeen
  | closeSeen
  | field (acc : List Char)

/-- Scanner of CPython's format-string mini-language, restricted to plain
replacement fields as they occur here: doubled braces are literal braces, a
field named `topic` is substituted, any other field text raises KeyError
(CPython distinguishes further cases — positional fields, conversions,
format specs — none of which occur in the inputs considered here), and an
unmatched brace raises ValueError. -/
def pyformat_go (topic : String) :
    FmtState → List Char → Except String (List Char)
  | .text, [] => Except.ok []
  | .openSeen, [] =>
      Except.error "ValueError: Single brace encountered in format string"
  | .closeSeen, [] =>
      Except.error "ValueError: Single brace encountered in format string"
  | .field _, [] =>
      Except.error "ValueError: Single brace encountered in format string"
  | .text, c :: rest =>
      if c = openBrace then
        pyformat_go topic .openSeen rest
      else if c = closeBrace then
        pyformat_go topic .closeSeen rest
      else
        (pyformat_go topic .text rest).map (fun l => c :: l)
  | .openSeen, c :: rest =>
      if c = openBrace then
        (pyformat_go topic .text rest).map (fun l => openBrace :: l)
      else if c = closeBrace then
        Except.error ("KeyError: " ++ String.mk [])
      else
        pyformat_go topic (.field [c]) rest
  | .closeSeen, c :: rest =>
      if c = closeBrace then
        (pyformat_go topic .text rest).map (fun l => closeBrace :: l)
      else
        Except.error "ValueError: Single brace encountered in format string"
  | .field acc, c :: rest =>
      if c = closeBrace then
        if String.mk acc.reverse = "topic" then
          (pyformat_go topic .text rest).map (fun l => topic.data ++ l)
        else
          Except.error ("KeyError: " ++ String.mk acc.reverse)
      else
        pyformat_go topic (.field (c :: acc)) rest

/-- `self.system_prompt_template.format(topic=self.discussion_topic)`
(`conversation.py` line 86) with Python's raising behaviour preserved. -/
def pyformat_topic (template topic : String) : Except String String :=
  (pyformat_go topic .text template.data).map String.mk

/-- `_build_context_for_model` with the raise path of the `format` call
threaded through: the only statement of the function that can raise is line
86, and nothing in the function catches it. -/
def build_context_checked (st : Orchestrator) (persona : String)
    (is_model_a : Bool) : Except String (List Msg) :=
  match pyformat_topic st.system_prompt_template st.discussion_topic with
  | Except.error e => Except.error e
  | Except.ok system_prompt =>
      let system_message : Msg :=
        { role := "system", content := persona ++ "\n\n" ++ system_prompt }
      Except.ok
        (if st.messages.length == 0 && is_model_a then
          [system_message, bootstrap_user_msg st.discussion_topic]
        else
          let msgs := system_message :: replay_from is_model_a 0 st.messages
          if 1 < msgs.length ∧ msgs.getLast?.map Msg.role = some "assistant" then
            msgs ++ [continue_user_msg]
          else
            msgs)

/-- `get_next_response` with the context-build raise path threaded through:
an `Except.error` outcome is an exception propagating uncaught past the
orchestrator's public operation. -/
def get_next_response_checked (st : Orchestrator) (turn_number : Nat) :
    Except String (Orchestrator × TurnResult) :=
  let is_model_a_turn : Bool := turn_number % 2 == 1
  let client := if is_model_a_turn then st.model_a_client else st.model_b_client
  let persona :=
    if is_model_a_turn then st.model_a_persona else st.model_b_persona
  let speaker := if is_model_a_turn then "Model A" else "Model B"
  match build_context_checked st persona is_model_a_turn with
  | Except.error e => Except.error e
  | Except.ok context_messages =>
      let result := client context_messages st.temperature
      let st' :=
        if result.success then
          { st with
              messages := st.messages ++
                [{ content := result.content.getD "", speaker := speaker,
                   turn := turn_number }] }
        else
          st
      Except.ok
        (st', { toGenResult := result, speaker := speaker, turn := turn_number })

/-- An orchestrator whose template file carried a placeholder other than
`topic` — `_load_system_prompt` does no validation, so this state is
reachable from construction. -/
def badTemplateOrch : Orchestrator :=
  mkOrchestrator (okClient "alpha") (okClient "beta") "pA" "pB" "T" 1
    (Except.ok (some "Hello \x7bmood\x7d"))

/-! ### Helper lemmas about the replay loop and the built view -/

/-- The system message that `_build_context_for_model` starts the view with. -/
def system_message_for (st : Orchestrator) (persona : String) : Msg :=
  { role := "system",
    content :=
      persona ++ "\n\n" ++ format_topic st.system_prompt_template st.discussion_topic }

theorem length_replay_from (a : Bool) :
    ∀ (i : Nat) (ms : List TranscriptEntry),
      (replay_from a i ms).length = ms.length
  | _, [] => rfl
  | i, _ :: rest => by
      simp [replay_from, length_replay_from a (i + 1) rest]

theorem replay_from_getElem? (a : Bool) :
    ∀ (i j : Nat) (ms : List TranscriptEntry),
      (replay_from a i ms)[j]? = ms[j]?.map (replay_entry a (i + j))
  | _, _, [] => by simp [replay_from]
  | i, 0, m :: rest => by simp [replay_from]
  | i, j + 1, m :: rest => by
      have harith : i + 1 + j = i + (j + 1) := by omega
      simp only [replay_from, List.getElem?_cons_succ,
        replay_from_getElem? a (i + 1) j rest, harith]

theorem replay_from_congr (a : Bool) :
    ∀ (i : Nat) (ms1 ms2 : List TranscriptEntry),
      ms1.map TranscriptEntry.content = ms2.map TranscriptEntry.content →
      replay_from a i ms1 = replay_from a i ms2
  | _, [], [] => fun _ => rfl
  | _, [], _ :: _ => by intro h; simp at h
  | _, _ :: _, [] => by intro h; simp at h
  | i, m1 :: r1, m2 :: r2 => by
      intro h
      simp only [List.map_cons, List.cons.injEq] at h
      have he : replay_entry a i m1 = replay_entry a i m2 := by
        unfold replay_entry
        rw [h.1]
      simp only [replay_from, he, replay_from_congr a (i + 1) r1 r2 h.2]

theorem replay_from_getLast? (a : Bool) (i : Nat) (ms : List TranscriptEntry) :
    (replay_from a i ms).getLast? =
      ms.getLast?.map (replay_entry a (i + (ms.length - 1))) := by
  rw [List.getLast?_eq_getElem?, List.getLast?_eq_getElem?,
    length_replay_from, replay_from_getElem?]

theorem replay_entry_role (a : Bool) (i : Nat) (m : TranscriptEntry) :
    (replay_entry a i m).role =
      if ((i % 2 == 0) == a) = true then "assistant" else "user" := by
  unfold replay_entry
  split <;> simp_all

theorem nonbootstrap_cond (st : Orchestrator) (a : Bool)
    (h : ¬(st.messages = [] ∧ a = true)) :
    (st.messages.length == 0 && a) = false := by
  by_cases hm : st.messages = []
  · have ha : a = false := by
      cases a
      · rfl
      · exact absurd ⟨hm, rfl⟩ h
    simp [ha]
  · have h0 : st.messages.length ≠ 0 := by
      simpa [List.length_eq_zero] using hm
    simp [h0]

theorem build_context_nonbootstrap (st : Orchestrator) (persona : String)
    (a : Bool) (h : ¬(st.messages = [] ∧ a = true)) :
    build_context_for_model st persona a =
      (if 1 < (system_message_for st persona :: replay_from a 0 st.messages).length ∧
          (system_message_for st persona ::
            replay_from a 0 st.messages).getLast?.map Msg.role = some "assistant"
       then
        (system_message_for st persona :: replay_from a 0 st.messages) ++
          [continue_user_msg]
       else
        system_message_for st persona :: replay_from a 0 st.messages) := by
  unfold build_context_for_model system_message_for
  rw [nonbootstrap_cond st a h]
  simp

theorem get_next_response_eq (st : Orchestrator) (n : Nat) :
    get_next_response st n =
      ((if (provider_result st n).success then
          { st with
              messages := st.messages ++
                [{ content := (provider_result st n).content.getD "",
                   speaker := speaker_name (n % 2 == 1), turn := n }] }
        else st),
       { toGenResult := provider_result st n,
         speaker := speaker_name (n % 2 == 1), turn := n }) := by
  unfold get_next_response provider_result speaker_name
  rfl

/-! ### The claims -/

/-- C1: for every `turn_number ≥ 1`, the resolved active speaker of
`get_next_response` is Model A iff the turn number is odd and Model B iff it
is even, and the result is produced by the resolved speaker's client applied
to the view built with the resolved speaker's persona. -/
theorem speaker_parity (st : Orchestrator) (n : Nat) (h : 1 ≤ n) :
    (((get_next_response st n).2.speaker = "Model A") ↔ n % 2 = 1) ∧
    (((get_next_response st n).2.speaker = "Model B") ↔ n % 2 = 0) ∧
    (get_next_response st n).2.toGenResult =
      (if n % 2 == 1 then st.model_a_client else st.model_b_client)
        (build_context_for_model st
          (if n % 2 == 1 then st.model_a_persona else st.model_b_persona)
          (n % 2 == 1))
        st.temperature := by
  rw [get_next_response_eq]
  unfold speaker_name provider_result
  rcases Nat.mod_two_eq_zero_or_one n with hn | hn <;> simp [hn]

theorem speaker_parity_witness :
    (1 ≤ 3 ∧ (((get_next_response (sampleOrch []) 3).2.speaker = "Model A") ↔
        3 % 2 = 1)) ∧
    (1 ≤ 2 ∧ (((get_next_response (sampleOrch []) 2).2.speaker = "Model B") ↔
        2 % 2 = 0)) :=
  ⟨⟨by decide, (speaker_parity (sampleOrch []) 3 (by decide)).1⟩,
   ⟨by decide, (speaker_parity (sampleOrch []) 2 (by decide)).2.1⟩⟩

/-- C4: with an empty transcript and active speaker A, the built view is
exactly the system message (persona, two newlines, topic-substituted
template) followed by the single bootstrap user message; no transcript
entries are replayed. -/
theorem bootstrap_view (st : Orchestrator) (persona : String)
    (hempty : st.messages = []) :
    build_context_for_model st persona true =
      [{ role := "system",
         content := persona ++ "\n\n" ++
           format_topic st.system_prompt_template st.discussion_topic },
       { role := "user",
         content := "Please start a conversation about: " ++
           st.discussion_topic ++
           ". Share your initial thoughts on this topic in 2-4 sentences." }] := by
  unfold build_context_for_model bootstrap_user_msg
  simp [hempty]

theorem bootstrap_view_witness :
    (sampleOrch []).messages = [] ∧
    build_context_for_model (sampleOrch []) "pA" true =
      [{ role := "system",
         content := "pA" ++ "\n\n" ++
           format_topic (sampleOrch []).system_prompt_template
             (sampleOrch []).discussion_topic },
       { role := "user",
         content := "Please start a conversation about: " ++
           (sampleOrch []).discussion_topic ++
           ". Share your initial thoughts on this topic in 2-4 sentences." }] :=
  ⟨rfl, bootstrap_view (sampleOrch []) "pA" rfl⟩

/-- C10: with an empty transcript and an even turn number (active speaker B),
the built view is the system message alone, and the provider is invoked with
that single-message list. -/
theorem system_only_view (st : Orchestrator) (persona : String) (n : Nat)
    (hempty : st.messages = []) (heven : n % 2 = 0) :
    build_context_for_model st persona (n % 2 == 1) =
      [system_message_for st persona] ∧
    (get_next_response st n).2.toGenResult =
      st.model_b_client [system_message_for st st.model_b_persona]
        st.temperature := by
  have hb : (n % 2 == 1) = false := by simp [heven]
  have hnb : ¬(st.messages = [] ∧ (false : Bool) = true) := by simp
  have hview : ∀ p : String,
      build_context_for_model st p false = [system_message_for st p] := by
    intro p
    rw [build_context_nonbootstrap st p false hnb]
    simp [hempty, replay_from]
  constructor
  · rw [hb]
    exact hview persona
  · rw [get_next_response_eq]
    unfold provider_result
    rw [hb]
    simp [hview]

theorem system_only_view_witness :
    ((sampleOrch []).messages = [] ∧ 2 % 2 = 0) ∧
    build_context_for_model (sampleOrch []) "pB" (2 % 2 == 1) =
      [system_message_for (sampleOrch []) "pB"] ∧
    (get_next_response (sampleOrch []) 2).2.toGenResult =
      (sampleOrch []).model_b_client
        [system_message_for (sampleOrch []) (sampleOrch []).model_b_persona]
        (sampleOrch []).temperature :=
  ⟨⟨rfl, rfl⟩, system_only_view (sampleOrch []) "pB" 2 rfl rfl⟩

/-- C8: after `reset`, the transcript is empty, every configuration field is
unchanged, and both the bootstrap view and the whole `get_next_response 1`
call coincide with those of a freshly constructed orchestrator with the same
configuration (same clients, personas, topic, temperature, and a template
source resolving to the same template). -/
theorem reset_spec (st : Orchestrator) (fo : Except String (Option String))
    (htemplate : st.system_prompt_template = load_system_prompt fo) :
    get_conversation_transcript (reset st) = [] ∧
    (reset st).model_a_client = st.model_a_client ∧
    (reset st).model_b_client = st.model_b_client ∧
    (reset st).model_a_persona = st.model_a_persona ∧
    (reset st).model_b_persona = st.model_b_persona ∧
    (reset st).discussion_topic = st.discussion_topic ∧
    (reset st).temperature = st.temperature ∧
    (reset st).system_prompt_template = st.system_prompt_template ∧
    build_context_for_model (reset st) st.model_a_persona true =
      build_context_for_model
        (mkOrchestrator st.model_a_client st.model_b_client st.model_a_persona
          st.model_b_persona st.discussion_topic st.temperature fo)
        st.model_a_persona true ∧
    get_next_response (reset st) 1 =
      get_next_response
        (mkOrchestrator st.model_a_client st.model_b_client st.model_a_persona
          st.model_b_persona st.discussion_topic st.temperature fo) 1 := by
  have hst : reset st =
      mkOrchestrator st.model_a_client st.model_b_client st.model_a_persona
        st.model_b_persona st.discussion_topic st.temperature fo := by
    unfold reset mkOrchestrator
    cases st
    simp_all
  exact ⟨rfl, rfl, rfl, rfl, rfl, rfl, rfl, rfl, by rw [hst], by rw [hst]⟩

/-- The template-file outcome used by the concrete fixtures. -/
def fileOk : Except String (Option String) :=
  Except.ok (some "Topic: \x7btopic\x7d")

/-- A freshly constructed orchestrator over the fixture configuration. -/
def freshOrch : Orchestrator :=
  mkOrchestrator (okClient "alpha") (okClient "beta") "pA" "pB" "T" 1 fileOk

theorem reset_spec_witness :
    freshOrch.system_prompt_template = load_system_prompt fileOk ∧
    get_conversation_transcript (reset freshOrch) = [] :=
  ⟨rfl, (reset_spec freshOrch fileOk rfl).1⟩

/-- C3: when the provider result is a success carrying content `c`, the new
transcript is the old one with exactly one entry appended, holding the turn
number, the active speaker, and `c` (so all previous entries are unchanged);
when the provider result is a failure the transcript is unchanged; in both
cases the returned record carries the speaker and turn number. -/
theorem transcript_append (st : Orchestrator) (n : Nat) :
    (∀ c : String, (provider_result st n).success = true →
        (provider_result st n).content = some c →
        (get_next_response st n).1.messages =
          st.messages ++
            [{ content := c, speaker := speaker_name (n % 2 == 1),
               turn := n }]) ∧
    ((provider_result st n).success = false →
        (get_next_response st n).1.messages = st.messages) ∧
    (get_next_response st n).2.speaker = speaker_name (n % 2 == 1) ∧
    (get_next_response st n).2.turn = n := by
  rw [get_next_response_eq]
  refine ⟨?_, ?_, rfl, rfl⟩
  · intro c hs hc
    simp [hs, hc]
  · intro hs
    simp [hs]

theorem transcript_append_witness :
    ((provider_result (sampleOrch []) 1).success = true ∧
      (provider_result (sampleOrch []) 1).content = some "alpha" ∧
      (get_next_response (sampleOrch []) 1).1.messages =
        (sampleOrch []).messages ++
          [{ content := "alpha", speaker := speaker_name (1 % 2 == 1),
             turn := 1 }]) ∧
    ((provider_result (sampleOrchFail []) 1).success = false ∧
      (get_next_response (sampleOrchFail []) 1).1.messages =
        (sampleOrchFail []).messages) :=
  ⟨⟨rfl, rfl, (transcript_append (sampleOrch []) 1).1 "alpha" rfl rfl⟩,
   ⟨rfl, (transcript_append (sampleOrchFail []) 1).2.1 rfl⟩⟩

/-- C7 (code bug): the no-raise claim fails on the real code.  With a
template file whose content holds the placeholder field `mood`, the
`str.format` call at `conversation.py` line 86 raises KeyError inside
`get_next_response`, outside any `try`, so the exception propagates past
the public operation instead of being returned as a failure record: the
exception-aware model returns the exception, not a Turn Result.  On the
spec-conforming fixture template the exception-aware model agrees with the
total one, both in the substituted template and in the whole
`get_next_response` outcome. -/
theorem uncaught_format_exception :
    get_next_response_checked badTemplateOrch 1 =
      Except.error "KeyError: mood" ∧
    pyformat_topic freshOrch.system_prompt_template
        freshOrch.discussion_topic =
      Except.ok (format_topic freshOrch.system_prompt_template
        freshOrch.discussion_topic) ∧
    (get_next_response_checked freshOrch 1).map (fun p => p.2) =
      Except.ok (get_next_response freshOrch 1).2 ∧
    (get_next_response_checked freshOrch 1).map (fun p => p.1.messages) =
      Except.ok (get_next_response freshOrch 1).1.messages := by
  refine ⟨by rfl, by rfl, by rfl, by rfl⟩

theorem getLast?_cons_of_ne_nil {α : Type} (x : α) {l : List α}
    (h : l ≠ []) : (x :: l).getLast? = l.getLast? := by
  cases l with
  | nil => exact absurd rfl h
  | cons y ys => exact List.getLast?_cons_cons

/-- C2: on a non-empty transcript whose recorded speakers follow the parity
convention, each transcript entry is replayed in order at its own position of
the non-system view, with role `assistant` when its author is the active
speaker and role `user` otherwise, carrying the entry's content; in
particular for the transcript `[(1,A,x),(2,B,y)]` and turn 3 the view is
`[system, assistant x, user y]`. -/
theorem replay_authorship (st : Orchestrator) (persona : String) (a : Bool)
    (hne : st.messages ≠ [])
    (hwf : st.messages.map TranscriptEntry.speaker =
      (List.range st.messages.length).map
        (fun j => if j % 2 = 0 then "Model A" else "Model B")) :
    (∀ (j : Nat) (m : TranscriptEntry), st.messages[j]? = some m →
        ((build_context_for_model st persona a).drop 1)[j]? =
          some (if m.speaker = speaker_name a then
                  { role := "assistant", content := m.content }
                else
                  { role := "user", content := m.content })) ∧
    build_context_for_model
        (sampleOrch [⟨"x", "Model A", 1⟩, ⟨"y", "Model B", 2⟩]) "pA" true =
      [{ role := "system", content := "pA\n\nTopic: T" },
       { role := "assistant", content := "x" },
       { role := "user", content := "y" }] := by
  constructor
  · intro j m hm
    have hj : j < st.messages.length := by
      by_contra hj
      rw [List.getElem?_eq_none (Nat.le_of_not_lt hj)] at hm
      exact Option.noConfusion hm
    have hnb : ¬(st.messages = [] ∧ a = true) := fun hc => hne hc.1
    rw [build_context_nonbootstrap st persona a hnb]
    have hjR : j < (replay_from a 0 st.messages).length := by
      rw [length_replay_from]
      exact hj
    have key :
        ((if 1 < (system_message_for st persona ::
              replay_from a 0 st.messages).length ∧
            (system_message_for st persona ::
              replay_from a 0 st.messages).getLast?.map Msg.role =
              some "assistant" then
            (system_message_for st persona ::
              replay_from a 0 st.messages) ++ [continue_user_msg]
          else
            system_message_for st persona ::
              replay_from a 0 st.messages).drop 1)[j]? =
          (replay_from a 0 st.messages)[j]? := by
      split
      · simp only [List.cons_append, List.drop_succ_cons, List.drop_zero]
        exact List.getElem?_append_left hjR
      · simp only [List.drop_succ_cons, List.drop_zero]
    rw [key, replay_from_getElem?, hm]
    simp only [Option.map_some', Option.some.injEq, Nat.zero_add]
    have hsp : m.speaker = (if j % 2 = 0 then "Model A" else "Model B") := by
      have hcb := congrArg (fun l => l[j]?) hwf
      simp only [List.getElem?_map, hm, Option.map_some',
        List.getElem?_range hj, Option.some.injEq] at hcb
      exact hcb
    unfold replay_entry speaker_name
    rw [hsp]
    rcases Nat.mod_two_eq_zero_or_one j with hj2 | hj2 <;> cases a <;>
      simp [hj2]
  · decide

theorem replay_authorship_witness :
    ((build_context_for_model (sampleOrch [⟨"hello", "Model A", 1⟩]) "pB"
        false).drop 1)[0]? =
      some (if TranscriptEntry.speaker ⟨"hello", "Model A", 1⟩ =
          speaker_name false then
              { role := "assistant", content := "hello" }
            else
              { role := "user", content := "hello" }) :=
  (replay_authorship (sampleOrch [⟨"hello", "Model A", 1⟩]) "pB" false
    (by decide) (by decide)).1 0 ⟨"hello", "Model A", 1⟩ rfl

/-- C9: the built view depends on the transcript only through its length and
the entries' contents — two states agreeing on the session configuration
whose transcripts have equal length and pairwise equal contents yield
identical views for the same persona and parity, regardless of the stored
`speaker` and `turn` fields. -/
theorem view_noninterference (st1 st2 : Orchestrator) (persona : String)
    (a : Bool)
    (htempl : st1.system_prompt_template = st2.system_prompt_template)
    (htopic : st1.discussion_topic = st2.discussion_topic)
    (hlen : st1.messages.length = st2.messages.length)
    (hcontent : st1.messages.map TranscriptEntry.content =
      st2.messages.map TranscriptEntry.content) :
    build_context_for_model st1 persona a =
      build_context_for_model st2 persona a := by
  unfold build_context_for_model
  rw [htempl, htopic, hlen, replay_from_congr a 0 _ _ hcontent]

theorem view_noninterference_witness :
    build_context_for_model
        (sampleOrch [⟨"x", "Model B", 7⟩, ⟨"y", "Model A", 0⟩]) "pA" true =
      build_context_for_model
        (sampleOrch [⟨"x", "Model A", 1⟩, ⟨"y", "Model B", 2⟩]) "pA" true :=
  view_noninterference
    (sampleOrch [⟨"x", "Model B", 7⟩, ⟨"y", "Model A", 0⟩])
    (sampleOrch [⟨"x", "Model A", 1⟩, ⟨"y", "Model B", 2⟩]) "pA" true
    rfl rfl rfl rfl

/-- C6: in a non-bootstrap build, when the replayed part ends with role
`assistant` exactly one trailing continue-prompt user message is appended;
when the replayed part is empty or ends with role `user` nothing is
appended; and whenever the returned view holds more than the system message
it does not end with an assistant-role message. -/
theorem continue_prompt (st : Orchestrator) (persona : String) (a : Bool)
    (hnb : ¬(st.messages = [] ∧ a = true)) :
    ((replay_from a 0 st.messages).getLast?.map Msg.role = some "assistant" →
        build_context_for_model st persona a =
          (system_message_for st persona :: replay_from a 0 st.messages) ++
            [continue_user_msg]) ∧
    ((replay_from a 0 st.messages = [] ∨
        (replay_from a 0 st.messages).getLast?.map Msg.role = some "user") →
        build_context_for_model st persona a =
          system_message_for st persona :: replay_from a 0 st.messages) ∧
    (1 < (build_context_for_model st persona a).length →
        ¬(build_context_for_model st persona a).getLast?.map Msg.role =
          some "assistant") := by
  rw [build_context_nonbootstrap st persona a hnb]
  refine ⟨?_, ?_, ?_⟩
  · intro hlast
    have hRne : replay_from a 0 st.messages ≠ [] := by
      intro h0
      rw [h0] at hlast
      simp at hlast
    have h1 : 1 < (system_message_for st persona ::
        replay_from a 0 st.messages).length := by
      have h3 : 0 < (replay_from a 0 st.messages).length :=
        List.length_pos.mpr hRne
      simp only [List.length_cons]
      omega
    have h2 : (system_message_for st persona ::
        replay_from a 0 st.messages).getLast?.map Msg.role =
        some "assistant" := by
      rw [getLast?_cons_of_ne_nil _ hRne]
      exact hlast
    rw [if_pos ⟨h1, h2⟩]
  · intro hcase
    have hcond : ¬(1 < (system_message_for st persona ::
        replay_from a 0 st.messages).length ∧
        (system_message_for st persona ::
          replay_from a 0 st.messages).getLast?.map Msg.role =
          some "assistant") := by
      rintro ⟨h1, h2⟩
      rcases hcase with h0 | hu
      · rw [h0] at h1
        simp at h1
      · have hRne : replay_from a 0 st.messages ≠ [] := by
          intro h0
          rw [h0] at hu
          simp at hu
        rw [getLast?_cons_of_ne_nil _ hRne, hu] at h2
        simp at h2
    rw [if_neg hcond]
  · by_cases hc : 1 < (system_message_for st persona ::
        replay_from a 0 st.messages).length ∧
        (system_message_for st persona ::
          replay_from a 0 st.messages).getLast?.map Msg.role =
          some "assistant"
    · rw [if_pos hc]
      intro _
      rw [List.getLast?_concat]
      simp [continue_user_msg]
    · rw [if_neg hc]
      intro hlen hlast
      exact hc ⟨hlen, hlast⟩

theorem continue_prompt_witness :
    (replay_from true 0
        (sampleOrch [⟨"x", "Model A", 1⟩]).messages).getLast?.map Msg.role =
      some "assistant" ∧
    build_context_for_model (sampleOrch [⟨"x", "Model A", 1⟩]) "pA" true =
      (system_message_for (sampleOrch [⟨"x", "Model A", 1⟩]) "pA" ::
        replay_from true 0 (sampleOrch [⟨"x", "Model A", 1⟩]).messages) ++
        [continue_user_msg] :=
  ⟨by decide,
   (continue_prompt (sampleOrch [⟨"x", "Model A", 1⟩]) "pA" true
      (by decide)).1 (by decide)⟩

/-- C5 fails as stated: for the strictly alternating transcript
`[(1,A,"x"),(2,B,"y")]` (so `k = 2`) the view built for the next speaker
(turn 3) has 2 non-system entries, not `k + 1 = 3`, and their roles are
`assistant, user`, not `user, assistant, user`. -/
theorem role_alternation_counterexample :
    ((build_context_for_model
        (sampleOrch [⟨"x", "Model A", 1⟩, ⟨"y", "Model B", 2⟩]) "pA"
        ((2 + 1) % 2 == 1)).drop 1).length ≠ 2 + 1 ∧
    ((build_context_for_model
        (sampleOrch [⟨"x", "Model A", 1⟩, ⟨"y", "Model B", 2⟩]) "pA"
        ((2 + 1) % 2 == 1)).drop 1).map Msg.role ≠
      ["user", "assistant", "user"] ∧
    ((build_context_for_model
        (sampleOrch [⟨"x", "Model A", 1⟩, ⟨"y", "Model B", 2⟩]) "pA"
        ((2 + 1) % 2 == 1)).drop 1).map Msg.role = ["assistant", "user"] := by
  refine ⟨by decide, by decide, by decide⟩

/-- C5 (amended): for a transcript of `k` strictly alternating messages, the
view built for the next speaker (turn `k + 1`) contains exactly `k`
non-system entries when `k ≥ 1` (and exactly one, a user message, in the
bootstrap case of an empty transcript with speaker A); the roles strictly
alternate, entry `j` being `assistant` exactly when `j` has the same parity
as `k`, so the last non-system entry is always a `user` message. -/
theorem role_alternation (st : Orchestrator) (persona : String)
    (hwf : st.messages.map TranscriptEntry.speaker =
      (List.range st.messages.length).map
        (fun j => if j % 2 = 0 then "Model A" else "Model B")) :
    (st.messages = [] →
        ((build_context_for_model st persona
            ((st.messages.length + 1) % 2 == 1)).drop 1).map Msg.role =
          ["user"]) ∧
    (st.messages ≠ [] →
        (((build_context_for_model st persona
              ((st.messages.length + 1) % 2 == 1)).drop 1).length =
            st.messages.length ∧
          ∀ j : Nat, j < st.messages.length →
            (((build_context_for_model st persona
                ((st.messages.length + 1) % 2 == 1)).drop 1)[j]?).map
                Msg.role =
              some (if j % 2 = st.messages.length % 2 then "assistant"
                    else "user"))) := by
  constructor
  · intro hempty
    unfold build_context_for_model
    simp [hempty, bootstrap_user_msg]
  · intro hne
    have hnb : ¬(st.messages = [] ∧
        ((st.messages.length + 1) % 2 == 1) = true) := fun hc => hne hc.1
    obtain ⟨m, hm⟩ : ∃ m, st.messages.getLast? = some m := by
      cases h : st.messages.getLast? with
      | none => exact absurd (List.getLast?_eq_none_iff.mp h) hne
      | some m => exact ⟨m, rfl⟩
    have hlen0 : 0 < st.messages.length := List.length_pos.mpr hne
    have hlastR : (replay_from ((st.messages.length + 1) % 2 == 1) 0
        st.messages).getLast?.map Msg.role = some "user" := by
      rw [replay_from_getLast?, hm]
      simp only [Option.map_some']
      rw [replay_entry_role, if_neg]
      rcases Nat.mod_two_eq_zero_or_one st.messages.length with h2 | h2
      · have ha : (st.messages.length - 1) % 2 = 1 := by omega
        have hb : (st.messages.length + 1) % 2 = 1 := by omega
        simp [ha, hb]
      · have ha : (st.messages.length - 1) % 2 = 0 := by omega
        have hb : (st.messages.length + 1) % 2 = 0 := by omega
        simp [ha, hb]
    rw [build_context_nonbootstrap st persona _ hnb]
    have hcond : ¬(1 < (system_message_for st persona ::
        replay_from ((st.messages.length + 1) % 2 == 1) 0
          st.messages).length ∧
        (system_message_for st persona ::
          replay_from ((st.messages.length + 1) % 2 == 1) 0
            st.messages).getLast?.map Msg.role = some "assistant") := by
      rintro ⟨h1, h2⟩
      have hRne : replay_from ((st.messages.length + 1) % 2 == 1) 0
          st.messages ≠ [] := by
        intro h0
        rw [h0] at hlastR
        simp at hlastR
      rw [getLast?_cons_of_ne_nil _ hRne, hlastR] at h2
      simp at h2
    rw [if_neg hcond]
    simp only [List.drop_succ_cons, List.drop_zero]
    refine ⟨length_replay_from _ 0 st.messages, ?_⟩
    intro j hj
    rw [replay_from_getElem?, List.getElem?_eq_getElem hj]
    simp only [Option.map_some']
    rw [replay_entry_role]
    rcases Nat.mod_two_eq_zero_or_one st.messages.length with h2 | h2 <;>
      rcases Nat.mod_two_eq_zero_or_one j with hj2 | hj2
    · have hb : (st.messages.length + 1) % 2 = 1 := by omega
      have ha : (0 + j) % 2 = 0 := by omega
      simp [ha, hb, hj2, h2]
    · have hb : (st.messages.length + 1) % 2 = 1 := by omega
      have ha : (0 + j) % 2 = 1 := by omega
      simp [ha, hb, hj2, h2]
    · have hb : (st.messages.length + 1) % 2 = 0 := by omega
      have ha : (0 + j) % 2 = 0 := by omega
      simp [ha, hb, hj2, h2]
    · have hb : (st.messages.length + 1) % 2 = 0 := by omega
      have ha : (0 + j) % 2 = 1 := by omega
      simp [ha, hb, hj2, h2]

theorem role_alternation_witness :
    ((build_context_for_model
        (sampleOrch [⟨"x", "Model A", 1⟩, ⟨"y", "Model B", 2⟩]) "pA"
        (((sampleOrch [⟨"x", "Model A", 1⟩,
            ⟨"y", "Model B", 2⟩]).messages.length + 1) % 2 == 1)).drop
        1).length =
      (sampleOrch [⟨"x", "Model A", 1⟩, ⟨"y", "Model B", 2⟩]).messages.length :=
  ((role_alternation (sampleOrch [⟨"x", "Model A", 1⟩, ⟨"y", "Model B", 2⟩])
      "pA" (by decide)).2 (by decide)).1

end LLMDuel
